import Mathlib

/-!
Shallow embedding of the Forex_Ultimate trading scheduler (KushT00/Forex_Ultimate).

Source files embedded:
- src/src/engine/main.py   (MultiTimeframeScheduler)
- src/src/data/fetcher.py  (get_data)
- src/src/strategies/strategy1.py (moving_average_crossover_strategy, dedup helpers)
- src/src/strategies/strategy4.py (dedup helper variant)

Modelling conventions:
- Wall-clock time is modelled at one-minute granularity as a `Nat` counting
  minutes since an epoch that falls at midnight, so `t % 1440` is the value
  `now.hour * 60 + now.minute` computed by the Python code.  All embedded
  functions take `now` as an explicit argument where the Python code calls
  `datetime.now()`.
- Python dicts holding signals are modelled by the `Signal` structure (the
  fields the engine reads: the `signal` kind, `timestamp`, `reason`).
- Exceptions are modelled with `Except String`; a Python function that may
  raise returns `Except String α` and its caller pattern-matches.
- File-based JSON logs (trade_log.json, strategyN.json) are modelled as the
  in-memory list they serialize: each read-modify-write append becomes a
  `List` append.
- Prices are rationals (`ℚ`); the float formatting inside reason strings is
  elided (reason text keeps only its fixed prefix).
-/

namespace ForexUltimate

/-- Signal kinds appearing in the repository: the strategies produce
BUY, SELL, CLOSE, HOLD, NO_SIGNAL, NO_DATA, ERROR in their result dicts. -/
inductive SignalKind where
  | BUY | SELL | CLOSE | HOLD | NO_SIGNAL | NO_DATA | ERROR
  deriving DecidableEq, Repr

/-- A strategy result dict, restricted to the fields the engine and the
dedup helpers read: `signal` (the kind), `timestamp`, `reason`. -/
structure Signal where
  kind : SignalKind
  timestamp : String
  reason : String
  deriving DecidableEq, Repr

/-- Rendering of a kind back to the string stored in the Python dicts. -/
def kindStr : SignalKind → String
  | .BUY => "BUY"
  | .SELL => "SELL"
  | .CLOSE => "CLOSE"
  | .HOLD => "HOLD"
  | .NO_SIGNAL => "NO_SIGNAL"
  | .NO_DATA => "NO_DATA"
  | .ERROR => "ERROR"

/-- MetaTrader5 timeframe constants (values of the MetaTrader5 package,
an external collaborator of this repository). -/
def TIMEFRAME_M1 : Nat := 1

/-- MetaTrader5 constant TIMEFRAME_M5. -/
def TIMEFRAME_M5 : Nat := 5

/-- MetaTrader5 constant TIMEFRAME_M15. -/
def TIMEFRAME_M15 : Nat := 15

/-- MetaTrader5 constant TIMEFRAME_M30. -/
def TIMEFRAME_M30 : Nat := 30

/-- MetaTrader5 constant TIMEFRAME_H1. -/
def TIMEFRAME_H1 : Nat := 16385

/-- MetaTrader5 constant TIMEFRAME_H4. -/
def TIMEFRAME_H4 : Nat := 16388

/-- MetaTrader5 constant TIMEFRAME_D1. -/
def TIMEFRAME_D1 : Nat := 16408

/-- `MultiTimeframeScheduler.is_candle_closed` (src/src/engine/main.py:125-129):
`minutes_since_midnight = now.hour * 60 + now.minute`, here `now % 1440`;
returns whether it is an exact multiple of the timeframe. -/
def is_candle_closed (timeframe_minutes : Nat) (now : Nat) : Bool :=
  let minutes_since_midnight := now % 1440
  minutes_since_midnight % timeframe_minutes == 0

/-- `MultiTimeframeScheduler.get_next_candle_time` (src/src/engine/main.py:131-140):
computes `minutes_until_next = timeframe_minutes - (minutes_since_midnight %
timeframe_minutes)`, replaces it by `timeframe_minutes` if it is 0, and returns
`now + timedelta(minutes=minutes_until_next)`. -/
def get_next_candle_time (timeframe_minutes : Nat) (now : Nat) : Nat :=
  let minutes_since_midnight := now % 1440
  let minutes_until_next := timeframe_minutes - minutes_since_midnight % timeframe_minutes
  let minutes_until_next := if minutes_until_next == 0 then timeframe_minutes else minutes_until_next
  now + minutes_until_next

/-- `MultiTimeframeScheduler._get_mt5_timeframe` (src/src/engine/main.py:203-214):
`timeframe_map.get(minutes, mt5.TIMEFRAME_M5)` over the literal dict. -/
def get_mt5_timeframe (minutes : Nat) : Nat :=
  if minutes == 1 then TIMEFRAME_M1
  else if minutes == 5 then TIMEFRAME_M5
  else if minutes == 15 then TIMEFRAME_M15
  else if minutes == 30 then TIMEFRAME_M30
  else if minutes == 60 then TIMEFRAME_H1
  else if minutes == 240 then TIMEFRAME_H4
  else if minutes == 1440 then TIMEFRAME_D1
  else TIMEFRAME_M5

namespace Strategy1

/-- `save_new_signal` (src/src/strategies/strategy1.py:30-36): loads the
existing array, appends the new signal, rewrites the file — as a list, an
append at the end. -/
def save_new_signal (existing_signals : List Signal) (new_signal : Signal) :
    List Signal :=
  existing_signals ++ [new_signal]

/-- `check_if_signal_already_logged` (src/src/strategies/strategy1.py:39-51):
returns True when the signal is falsy (None) or its kind is one of
NO_DATA, ERROR, HOLD; otherwise scans the log for an entry with the same
`timestamp` and the same `signal` kind. -/
def check_if_signal_already_logged (existing_signals : List Signal)
    (new_signal : Option Signal) : Bool :=
  match new_signal with
  | none => true
  | some s =>
    if s.kind == .NO_DATA || s.kind == .ERROR || s.kind == .HOLD then true
    else existing_signals.any fun e =>
      e.timestamp == s.timestamp && e.kind == s.kind

end Strategy1

namespace Strategy4

/-- `check_if_signal_already_logged` (src/src/strategies/strategy4.py:161-173):
identical to the strategy1 variant except that its early-return kind list is
only NO_DATA, ERROR (it does not filter HOLD). -/
def check_if_signal_already_logged (existing_signals : List Signal)
    (new_signal : Option Signal) : Bool :=
  match new_signal with
  | none => true
  | some s =>
    if s.kind == .NO_DATA || s.kind == .ERROR then true
    else existing_signals.any fun e =>
      e.timestamp == s.timestamp && e.kind == s.kind

end Strategy4

/-- One OHLCV row as used by the embedded strategy: the `time` of the candle
(as the string the dedup key uses) and its `close` price. -/
structure Candle where
  time : String
  close : ℚ
  deriving DecidableEq, Repr

/-- `get_data` (src/src/data/fetcher.py:7-30).  Raises RuntimeError when the
MT5 connection cannot be acquired; calls `mt5.copy_rates_from_pos` — its
response is the `prices` argument here, `none` for the None return — and
raises ValueError when the response is None or empty; otherwise returns the
rows as a dataframe (here the row list). -/
def get_data (mt5_ok : Bool) (prices : Option (List Candle)) (symbol : String) :
    Except String (List Candle) :=
  if !mt5_ok then .error "MT5 initialization failed (data/Fetcher)"
  else
    match prices with
    | none => .error ("Failed to fetch data for " ++ symbol)
    | some rows =>
      if rows.length == 0 then .error ("Failed to fetch data for " ++ symbol)
      else .ok rows

/-- Pandas `Series.rolling(w).mean()` read at position `i` of a series of
length at least `i + 1`: the mean of the `w` entries ending at `i`, or NaN
(modelled as `none`) while fewer than `w` entries are available. -/
def rolling_mean (w : Nat) (xs : List ℚ) (i : Nat) : Option ℚ :=
  if w ≤ i + 1 then some ((((xs.take (i + 1)).drop (i + 1 - w)).sum) / (w : ℚ))
  else none

namespace Strategy1

/-- `moving_average_crossover_strategy` (src/src/strategies/strategy1.py:54-126).
The body runs inside a try/except: any raise from `get_data` (or elsewhere)
is caught and becomes a `signal=ERROR` dict.  Otherwise: if the dataframe is
empty or shorter than `slow_period`, return NO_DATA; else compute fast and
slow rolling means, read the last and second-to-last values, return NO_SIGNAL
when any of them is NaN, and otherwise classify the crossover into BUY, SELL
or HOLD.  `str(df.index[-1])` (the timestamp field) is modelled by the last
row's `time`; numeric formatting inside reason strings is elided. -/
def moving_average_crossover_strategy (mt5_ok : Bool)
    (prices : Option (List Candle)) (symbol : String)
    (fast_period : Nat := 10) (slow_period : Nat := 20) : Signal :=
  match get_data mt5_ok prices symbol with
  | .error e => { kind := .ERROR, timestamp := "", reason := "Strategy error: " ++ e }
  | .ok df =>
    if df.length == 0 || df.length < slow_period then
      { kind := .NO_DATA, timestamp := "", reason := "Insufficient data for analysis" }
    else
      let closes := df.map Candle.close
      let n := df.length
      let last_time := (df.getLast?.map Candle.time).getD ""
      match rolling_mean fast_period closes (n - 1),
            rolling_mean slow_period closes (n - 1),
            rolling_mean fast_period closes (n - 2),
            rolling_mean slow_period closes (n - 2) with
      | some current_fast, some current_slow, some prev_fast, some prev_slow =>
        if prev_fast ≤ prev_slow ∧ current_slow < current_fast then
          { kind := .BUY, timestamp := last_time,
            reason := "Bullish MA crossover" }
        else if prev_slow ≤ prev_fast ∧ current_fast < current_slow then
          { kind := .SELL, timestamp := last_time,
            reason := "Bearish MA crossover" }
        else
          { kind := .HOLD, timestamp := last_time,
            reason := "No crossover" }
      | _, _, _, _ =>
        { kind := .NO_SIGNAL, timestamp := "",
          reason := "Moving averages not calculated yet" }

end Strategy1

/-- A record of trade_log.json as built at src/src/engine/main.py:167-176
(the fields relevant to the claims; `logged_at` and the optional
indicator extras are elided). -/
structure TradeData where
  strategy_name : String
  symbol : String
  timeframe_minutes : Nat
  kind : SignalKind
  reason : String
  timestamp : String
  deriving DecidableEq, Repr

/-- Construction of the trade_data dict from a strategy result
(src/src/engine/main.py:167-176). -/
def mk_trade_data (strategy_name symbol : String) (timeframe : Nat)
    (r : Signal) : TradeData :=
  { strategy_name, symbol, timeframe_minutes := timeframe,
    kind := r.kind, reason := r.reason, timestamp := r.timestamp }

/-- `MultiTimeframeScheduler.log_trade` (src/src/engine/main.py:95-113):
reads the whole trade_log.json array, appends the record, rewrites the file
— as a list, an unconditional append. -/
def log_trade (trades : List TradeData) (trade_data : TradeData) :
    List TradeData :=
  trades ++ [trade_data]

/-- Operational log lines emitted by the engine (logging.info / warning /
error calls), kept so theorems can talk about what got logged vs persisted. -/
inductive LogEvent where
  | info (msg : String)
  | warning (msg : String)
  | errorMsg (msg : String)
  deriving DecidableEq, Repr

/-- One iteration of the per-symbol loop of
`MultiTimeframeScheduler.run_strategy_threaded` (src/src/engine/main.py:162-195).
The strategy call either returns a result dict (`Except.ok (some r)`), returns
None as strategy4 can (`Except.ok none` — the subsequent `result.get` then
raises AttributeError, landing in the same per-symbol except handler), or
raises (`Except.error`).  Exceptions are caught and logged; only BUY and SELL
results are persisted via `log_trade`; HOLD is logged at info level and every
other kind at warning level. -/
def process_symbol (strategy_name symbol : String) (timeframe : Nat)
    (trades : List TradeData) (result : Except String (Option Signal)) :
    List TradeData × LogEvent :=
  match result with
  | .error e =>
    (trades, .errorMsg (strategy_name ++ " - " ++ symbol ++ " Error: " ++ e))
  | .ok none =>
    (trades, .errorMsg (strategy_name ++ " - " ++ symbol ++
      " Error: NoneType object has no attribute get"))
  | .ok (some r) =>
    let trade_data := mk_trade_data strategy_name symbol timeframe r
    let line := strategy_name ++ " - " ++ symbol ++ ": " ++ kindStr r.kind ++
      " - " ++ r.reason
    if r.kind == .BUY || r.kind == .SELL then
      (log_trade trades trade_data, .info line)
    else if r.kind == .HOLD then
      (trades, .info line)
    else
      (trades, .warning line)

/-- The whole per-symbol loop of `run_strategy_threaded`
(src/src/engine/main.py:162-195): folds `process_symbol` over the symbols in
order, threading the trade log and collecting one log event per symbol. -/
def run_symbols (strategy_name : String) (timeframe : Nat)
    (trades : List TradeData)
    (results : List (String × Except String (Option Signal))) :
    List TradeData × List LogEvent :=
  match results with
  | [] => (trades, [])
  | (symbol, res) :: rest =>
    let step := process_symbol strategy_name symbol timeframe trades res
    let tail := run_symbols strategy_name timeframe step.1 rest
    (tail.1, step.2 :: tail.2)

/-- Outcome of one `run_strategy_threaded` call: the trade log after the call,
the operational log lines, the signals obtained from strategy calls, whether
the per-symbol strategy calls were made at all, and the MT5 timeframe constant
those calls receive (src/src/engine/main.py:164). -/
structure RunResult where
  trades : List TradeData
  events : List LogEvent
  emitted_signals : List Signal
  invoked_strategy : Bool
  mt5_timeframe : Nat
  deriving DecidableEq, Repr

/-- `MultiTimeframeScheduler.run_strategy_threaded`
(src/src/engine/main.py:142-201).  If `is_candle_closed` fails for the
configured timeframe, it logs a SKIPPING line and returns — no signal is
produced and the strategy function is never invoked.  Otherwise it runs the
per-symbol loop; the strategy calls receive `_get_mt5_timeframe(timeframe)`
while the boundary check above used the raw minutes.  The per-symbol results
are supplied as data (`results`), one per symbol in order. -/
def run_strategy_threaded (strategy_name : String) (timeframe : Nat)
    (now : Nat) (trades : List TradeData)
    (results : List (String × Except String (Option Signal))) : RunResult :=
  if !(is_candle_closed timeframe now) then
    { trades,
      events := [.info (strategy_name ++ ": SKIPPING - " ++ toString timeframe ++
        "-minute candle not closed yet")],
      emitted_signals := [],
      invoked_strategy := false,
      mt5_timeframe := get_mt5_timeframe timeframe }
  else
    let looped := run_symbols strategy_name timeframe trades results
    { trades := looped.1,
      events := looped.2,
      emitted_signals := results.filterMap fun p =>
        match p.2 with
        | .ok (some r) => some r
        | _ => none,
      invoked_strategy := true,
      mt5_timeframe := get_mt5_timeframe timeframe }

/-- A registered strategy entry, the value stored in `self.strategies`
(src/src/engine/main.py:115-123): symbols, timeframe, last_run, and the
next_execution slot that `start_scheduler` fills in later. -/
structure StrategyInfo where
  symbols : List String
  timeframe : Nat
  last_run : Option Nat
  next_execution : Option Nat
  deriving DecidableEq, Repr

/-- The `self.strategies` dict, modelled as a partial map from names.
Python dict assignment becomes pointwise update; claims do not depend on
the dict iteration order. -/
def Registry : Type := String → Option StrategyInfo

/-- `MultiTimeframeScheduler.add_strategy` (src/src/engine/main.py:115-123):
an unconditional dict assignment `self.strategies[name] = ...` — no check
that the name is free, no next_execution computation. -/
def add_strategy (strategies : Registry) (name : String)
    (symbols : List String) (timeframe_minutes : Nat) : Registry :=
  fun k =>
    if k = name then
      some { symbols, timeframe := timeframe_minutes,
             last_run := none, next_execution := none }
    else strategies k

/-- The initialization pass at the top of
`MultiTimeframeScheduler.start_scheduler` (src/src/engine/main.py:220-225):
for every registered entry, set `next_execution` from `get_next_candle_time`. -/
def init_next_executions (strategies : Registry) (now : Nat) : Registry :=
  fun k =>
    (strategies k).map fun info =>
      let nxt := get_next_candle_time info.timeframe now
      { info with next_execution := some nxt }

/-- Events of one scheduler tick handling one entry
(src/src/engine/main.py:233-241), in the order the code performs them:
`dispatch` is the (synchronous) `run_strategy_threaded` call at line 236 and
`advance` is the `next_execution` update at lines 239-240. -/
inductive TickEvent where
  | dispatch (name : String)
  | advance (name : String) (next : Nat)
  deriving DecidableEq, Repr

/-- Whether an event is the dispatch of a run. -/
def is_dispatch : TickEvent → Bool
  | .dispatch _ => true
  | _ => false

/-- Whether an event is an advancement of next_execution. -/
def is_advance : TickEvent → Bool
  | .advance _ _ => true
  | _ => false

/-- Whether some advancement of next_execution occurs strictly before the
first dispatch in an event trace. -/
def advance_before_dispatch (evs : List TickEvent) : Bool :=
  (evs.takeWhile fun ev => !(is_dispatch ev)).any is_advance

/-- A scheduler entry as seen by the main loop: its dict key and the fields
the loop reads. -/
structure ScheduleEntry where
  name : String
  timeframe : Nat
  next_execution : Option Nat
  deriving DecidableEq, Repr

/-- One entry's handling inside a tick of the main loop
(src/src/engine/main.py:229-241).  `current_time` is the `datetime.now()`
captured at the top of the tick; if the entry is due, the loop calls
`run_strategy_threaded` synchronously (the thread pool is never used for
dispatch) and only after it returns recomputes `next_execution` via
`get_next_candle_time`, whose internal `datetime.now()` is then
`current_time + run_duration` where `run_duration` is how long the
synchronous run took. -/
def tick_entry (current_time run_duration : Nat) (e : ScheduleEntry) :
    ScheduleEntry × List TickEvent :=
  match e.next_execution with
  | none => (e, [])
  | some nxt =>
    if nxt ≤ current_time then
      let new_next := get_next_candle_time e.timeframe (current_time + run_duration)
      ({ e with next_execution := some new_next },
       [.dispatch e.name, .advance e.name new_next])
    else (e, [])

/-! Helper lemmas shared by the claim theorems. -/

/-- The next candle time is strictly in the future for any positive timeframe. -/
theorem get_next_candle_time_strict_future (T t : Nat) (hT : 0 < T) :
    t < get_next_candle_time T t := by
  unfold get_next_candle_time
  dsimp only
  split
  · omega
  · have h2 : t % 1440 % T < T := Nat.mod_lt _ hT
    omega

/-- For a timeframe dividing the day, the next candle time lands on a
minutes-since-midnight index that is a multiple of the timeframe. -/
theorem get_next_candle_time_mod_zero (T t : Nat) (hT : 0 < T)
    (hdvd : T ∣ 1440) : get_next_candle_time T t % 1440 % T = 0 := by
  have hmm : t % 1440 % T = t % T := Nat.mod_mod_of_dvd t hdvd
  have hlt : t % T < T := Nat.mod_lt t hT
  have hne : T - t % T ≠ 0 := Nat.sub_ne_zero_of_lt hlt
  unfold get_next_candle_time
  dsimp only
  rw [hmm]
  rw [if_neg (by simpa using hne)]
  rw [Nat.mod_mod_of_dvd _ hdvd]
  have h2 : T * (t / T) + t % T = t := Nat.div_add_mod t T
  have key : t + (T - t % T) = T * (t / T) + T := by
    generalize T * (t / T) = a at h2
    generalize t % T = r at h2 hlt
    omega
  rw [key, Nat.add_mod, Nat.mul_mod_right, Nat.mod_self]
  simp

/-- The per-symbol loop emits exactly one operational log event per symbol,
whatever the per-symbol outcomes are. -/
theorem run_symbols_length_eq (n : String) (tf : Nat) :
    ∀ (results : List (String × Except String (Option Signal)))
      (trades : List TradeData),
      (run_symbols n tf trades results).2.length = results.length := by
  intro results
  induction results with
  | nil => intro trades; rfl
  | cons hd tl ih =>
    intro trades
    simp [run_symbols, ih]

/-- C3 counterexample: the claim quantifies over every positive timeframe,
but for T = 7 at t = 1436 minutes (23:56) the code returns 1442, whose
minutes-since-midnight index 2 is not a multiple of 7: the alignment fails
when the added delta crosses midnight and T does not divide 1440. -/
theorem C3_counterexample :
    get_next_candle_time 7 1436 = 1442
    ∧ 1436 < get_next_candle_time 7 1436
    ∧ ¬(get_next_candle_time 7 1436 % 1440 % 7 = 0) := by decide

/-- C3 (amended): for every time t and positive timeframe T that divides 1440
(which covers every supported timeframe), get_next_candle_time returns a time
strictly after t whose minutes-since-midnight index is a multiple of T; the
delta added is T - (elapsed mod T), with the replace-by-T branch unreachable. -/
theorem C3_next_candle_time (T t : Nat) (hT : 0 < T) (hdvd : T ∣ 1440) :
    t < get_next_candle_time T t
    ∧ get_next_candle_time T t % 1440 % T = 0 :=
  ⟨get_next_candle_time_strict_future T t hT,
   get_next_candle_time_mod_zero T t hT hdvd⟩

/-- C3 witness: the amended theorem applied at T = 5, t = 1436. -/
theorem C3_next_candle_time_witness :
    0 < 5 ∧ (5 : Nat) ∣ 1440
    ∧ (1436 < get_next_candle_time 5 1436
       ∧ get_next_candle_time 5 1436 % 1440 % 5 = 0) :=
  ⟨by decide, by decide, C3_next_candle_time 5 1436 (by decide) (by decide)⟩

/-- C6 counterexample: registering a second entry under an already-registered
name neither fails with DuplicateEntry nor is rejected — it silently replaces
the first entry, and next_execution is left unset at registration. -/
theorem C6_counterexample :
    add_strategy (add_strategy (fun _ => none) "MA_Crossover_5min" ["EURUSD"] 5)
        "MA_Crossover_5min" ["XAUUSD"] 15 "MA_Crossover_5min"
      = some { symbols := ["XAUUSD"], timeframe := 15,
               last_run := none, next_execution := none } := by
  decide

/-- C6 (amended): registration always succeeds, silently overwriting any
entry already registered under the same name, and leaves next_execution
unset; the candle aligner is applied to every entry only when the scheduler
starts (init pass of start_scheduler), not at registration. -/
theorem C6_registration_overwrites (m : Registry) (name : String)
    (symbols : List String) (tf now : Nat) :
    add_strategy m name symbols tf name
      = some { symbols := symbols, timeframe := tf,
               last_run := none, next_execution := none }
    ∧ init_next_executions (add_strategy m name symbols tf) now name
      = some { symbols := symbols, timeframe := tf, last_run := none,
               next_execution := some (get_next_candle_time tf now) } := by
  constructor <;> simp [add_strategy, init_next_executions]

/-- C7 counterexample: the non-actionable filter of the strategy1 dedup
helper does not include NO_SIGNAL, and the strategy4 variant includes neither
NO_SIGNAL nor HOLD: against an empty log the check returns false for them, so
the caller would treat such a signal as novel and persist it — shouldPersist
is not false for every kind in the set the claim names. -/
theorem C7_counterexample :
    Strategy1.check_if_signal_already_logged []
        (some { kind := .NO_SIGNAL, timestamp := "t", reason := "" }) = false
    ∧ Strategy4.check_if_signal_already_logged []
        (some { kind := .HOLD, timestamp := "t", reason := "" }) = false := by
  decide

/-- C7 (amended): the strategy1 dedup helper short-circuits (never persists)
exactly the kinds NO_DATA, ERROR and HOLD, and the strategy4 variant exactly
NO_DATA and ERROR, regardless of the log contents; NO_SIGNAL (and HOLD for
strategy4) is not filtered and goes through the ordinary duplicate scan. -/
theorem C7_non_actionable_filter (log : List Signal) (s : Signal) :
    ((s.kind = .NO_DATA ∨ s.kind = .ERROR ∨ s.kind = .HOLD) →
      Strategy1.check_if_signal_already_logged log (some s) = true)
    ∧ ((s.kind = .NO_DATA ∨ s.kind = .ERROR) →
      Strategy4.check_if_signal_already_logged log (some s) = true) := by
  constructor
  · rintro (h | h | h) <;>
      simp [Strategy1.check_if_signal_already_logged, h]
  · rintro (h | h) <;>
      simp [Strategy4.check_if_signal_already_logged, h]

/-- C7 witness: the amended theorem applied to a HOLD signal (strategy1) and
an ERROR signal (strategy4) against an empty log. -/
theorem C7_non_actionable_filter_witness :
    Strategy1.check_if_signal_already_logged []
        (some { kind := .HOLD, timestamp := "t", reason := "" }) = true
    ∧ Strategy4.check_if_signal_already_logged []
        (some { kind := .ERROR, timestamp := "t", reason := "" }) = true :=
  ⟨(C7_non_actionable_filter [] { kind := .HOLD, timestamp := "t", reason := "" }).1
      (Or.inr (Or.inr rfl)),
   (C7_non_actionable_filter [] { kind := .ERROR, timestamp := "t", reason := "" }).2
      (Or.inr rfl)⟩

/-- C8 (confirmed): replaying the same actionable signal through the
check-then-append sequence yields novel (check false, so the caller persists)
on the first pass, and duplicate (check true, rejected) on the second pass
after save_new_signal appended it. -/
theorem C8_replay_true_then_false (log : List Signal) (s : Signal)
    (hkind : s.kind = .BUY ∨ s.kind = .SELL ∨ s.kind = .CLOSE)
    (hnew : (log.any fun e => e.timestamp == s.timestamp && e.kind == s.kind)
      = false) :
    Strategy1.check_if_signal_already_logged log (some s) = false
    ∧ Strategy1.check_if_signal_already_logged
        (Strategy1.save_new_signal log s) (some s) = true := by
  have hfilter :
      (s.kind == .NO_DATA || s.kind == .ERROR || s.kind == .HOLD) = false := by
    rcases hkind with h | h | h <;> simp [h]
  constructor
  · simp [Strategy1.check_if_signal_already_logged, hfilter, hnew]
  · simp [Strategy1.check_if_signal_already_logged, Strategy1.save_new_signal,
      hfilter, List.any_append]

/-- C8 witness: a fresh BUY signal against an empty log. -/
theorem C8_replay_true_then_false_witness :
    Strategy1.check_if_signal_already_logged []
        (some { kind := .BUY, timestamp := "2024-01-01 09:05:00", reason := "r" })
      = false
    ∧ Strategy1.check_if_signal_already_logged
        (Strategy1.save_new_signal []
          { kind := .BUY, timestamp := "2024-01-01 09:05:00", reason := "r" })
        (some { kind := .BUY, timestamp := "2024-01-01 09:05:00", reason := "r" })
      = true :=
  C8_replay_true_then_false []
    { kind := .BUY, timestamp := "2024-01-01 09:05:00", reason := "r" }
    (Or.inl rfl) (by decide)

/-- C1 counterexample: the scheduler persist gate is only
`result["signal"] in ["BUY", "SELL"]` with no duplicate lookup — a CLOSE
signal against an empty trade log is not persisted (refuting the if
direction), and a BUY signal identical to an already-persisted record is
persisted again (refuting the only-if direction). -/
theorem C1_counterexample :
    (process_symbol "Supertrend_RSI_15min" "XAUUSD" 15 []
        (Except.ok (some { kind := .CLOSE, timestamp := "t1",
                           reason := "RSI crossed below 70" }))).1 = []
    ∧ (process_symbol "MA_Crossover_5min" "EURUSD" 5
        [mk_trade_data "MA_Crossover_5min" "EURUSD" 5
          { kind := .BUY, timestamp := "t1", reason := "r" }]
        (Except.ok (some { kind := .BUY, timestamp := "t1", reason := "r" }))).1
      = [mk_trade_data "MA_Crossover_5min" "EURUSD" 5
          { kind := .BUY, timestamp := "t1", reason := "r" },
         mk_trade_data "MA_Crossover_5min" "EURUSD" 5
          { kind := .BUY, timestamp := "t1", reason := "r" }] := by
  decide

/-- C1 (amended): for every strategy result the scheduler receives, it
persists the built trade record to the trade log exactly when the result
kind is BUY or SELL — CLOSE is only logged at warning level, and no check
against previously persisted signals is made, so duplicates are appended. -/
theorem C1_persist_iff_buy_or_sell (n s : String) (tf : Nat)
    (trades : List TradeData) (r : Signal) :
    (process_symbol n s tf trades (Except.ok (some r))).1
      = if r.kind == .BUY || r.kind == .SELL then
          log_trade trades (mk_trade_data n s tf r)
        else trades := by
  unfold process_symbol
  dsimp only
  split
  · rfl
  · split <;> rfl

/-- Concrete entry used by the scheduler-tick theorems: the 5-minute entry,
registered and due at minute 10. -/
def entry_5min : ScheduleEntry :=
  { name := "MA_Crossover_5min", timeframe := 5, next_execution := some 10 }

/-- C2 counterexample: an entry with timeframe 5 due at minute 10, whose
synchronous run takes 7 minutes.  The tick trace is dispatch first, advance
second (no advancement precedes the dispatch), and the advanced value 20 is
computed from the post-run clock 17 — had next_execution been advanced at
dispatch time, it would have been get_next_candle_time 5 10 = 15. -/
theorem C2_counterexample :
    (tick_entry 10 7 entry_5min).2
      = [TickEvent.dispatch "MA_Crossover_5min",
         TickEvent.advance "MA_Crossover_5min" 20]
    ∧ advance_before_dispatch (tick_entry 10 7 entry_5min).2 = false
    ∧ get_next_candle_time 5 10 = 15 := by
  decide

/-- C2 (amended): when an entry is due, the main loop calls
run_strategy_threaded synchronously and advances next_execution only after
that call returns, computing the next boundary from the run-completion time;
the advanced value is still strictly past the completion time (hence past the
dispatch time), so later ticks cannot re-dispatch the entry for the same
boundary — an over-long run skips boundaries rather than double-firing. -/
theorem C2_advance_after_dispatch (e : ScheduleEntry)
    (current_time run_duration nx : Nat) (hT : 0 < e.timeframe)
    (hnx : e.next_execution = some nx) (hdue : nx ≤ current_time) :
    (tick_entry current_time run_duration e).2
      = [TickEvent.dispatch e.name,
         TickEvent.advance e.name
           (get_next_candle_time e.timeframe (current_time + run_duration))]
    ∧ (tick_entry current_time run_duration e).1.next_execution
      = some (get_next_candle_time e.timeframe (current_time + run_duration))
    ∧ current_time + run_duration
      < get_next_candle_time e.timeframe (current_time + run_duration) := by
  refine ⟨?_, ?_, ?_⟩
  · simp [tick_entry, hnx, hdue]
  · simp [tick_entry, hnx, hdue]
  · exact get_next_candle_time_strict_future _ _ hT

/-- C2 witness: the amended theorem at the counterexample inputs. -/
theorem C2_advance_after_dispatch_witness :
    (tick_entry 10 7 entry_5min).2
      = [TickEvent.dispatch "MA_Crossover_5min",
         TickEvent.advance "MA_Crossover_5min" (get_next_candle_time 5 (10 + 7))]
    ∧ (tick_entry 10 7 entry_5min).1.next_execution
      = some (get_next_candle_time 5 (10 + 7))
    ∧ 10 + 7 < get_next_candle_time 5 (10 + 7) :=
  C2_advance_after_dispatch entry_5min 10 7 10 (by decide) rfl (by decide)

/-- C4 counterexample: when the market-data provider cannot return candles
(copy_rates_from_pos yields None), get_data raises ValueError and the
strategy surfaces the caught exception as kind ERROR — not NO_DATA. -/
theorem C4_counterexample :
    (Strategy1.moving_average_crossover_strategy true none "EURUSD").kind
      = .ERROR
    ∧ (Strategy1.moving_average_crossover_strategy true none "EURUSD").kind
      ≠ .NO_DATA := by
  decide

/-- C4 (amended): a provider that returns nothing (None or an empty row set)
makes get_data raise; the strategy catches the exception and surfaces kind
ERROR (never fatal — the run still returns a signal).  Kind NO_DATA is
surfaced only when the provider does return rows but fewer than slow_period,
the insufficient-history case. -/
theorem C4_data_unavailable (symbol : String) (rows : List Candle)
    (hlen : rows.length < 20) :
    (Strategy1.moving_average_crossover_strategy true none symbol).kind = .ERROR
    ∧ (Strategy1.moving_average_crossover_strategy true (some []) symbol).kind
      = .ERROR
    ∧ (0 < rows.length →
        (Strategy1.moving_average_crossover_strategy true (some rows) symbol).kind
          = .NO_DATA) := by
  refine ⟨rfl, rfl, fun hpos => ?_⟩
  unfold Strategy1.moving_average_crossover_strategy get_data
  have h0 : (rows.length == 0) = false := by
    rw [beq_eq_false_iff_ne]
    omega
  simp [h0, hlen]

/-- C4 witness: the amended theorem at a one-row provider response. -/
theorem C4_data_unavailable_witness :
    (Strategy1.moving_average_crossover_strategy true none "EURUSD").kind
      = .ERROR
    ∧ (Strategy1.moving_average_crossover_strategy true
        (some [{ time := "t0", close := 1 }]) "EURUSD").kind = .NO_DATA :=
  ⟨(C4_data_unavailable "EURUSD" [{ time := "t0", close := 1 }] (by decide)).1,
   (C4_data_unavailable "EURUSD" [{ time := "t0", close := 1 }] (by decide)).2.2
     (by decide)⟩

/-- Concrete BUY result used by the runner theorems. -/
def sample_buy : Signal := { kind := .BUY, timestamp := "t", reason := "r" }

/-- C5 counterexample: at minute 12 — not a 5-minute boundary — the runner
emits only the SKIPPING log line and produces no signal whatsoever: there is
no kind=HOLD signal and no reason string "boundary not confirmed". -/
theorem C5_counterexample :
    (run_strategy_threaded "MA_Crossover_5min" 5 12 []
        [("EURUSD", Except.ok (some sample_buy))]).emitted_signals = []
    ∧ (run_strategy_threaded "MA_Crossover_5min" 5 12 []
        [("EURUSD", Except.ok (some sample_buy))]).invoked_strategy = false
    ∧ (run_strategy_threaded "MA_Crossover_5min" 5 12 []
        [("EURUSD", Except.ok (some sample_buy))]).events
      = [LogEvent.info
          "MA_Crossover_5min: SKIPPING - 5-minute candle not closed yet"] := by
  decide

/-- C5 (amended): when the current time is not a candle-close boundary for
the entry timeframe, run_strategy_threaded logs a SKIPPING info line and
returns without invoking the strategy function and without producing any
signal (in particular no HOLD signal), leaving the trade log untouched; the
situation is not treated as an error. -/
theorem C5_skip_produces_no_signal (n : String) (tf now : Nat)
    (trades : List TradeData)
    (results : List (String × Except String (Option Signal)))
    (h : is_candle_closed tf now = false) :
    run_strategy_threaded n tf now trades results
      = { trades := trades,
          events := [.info (n ++ ": SKIPPING - " ++ toString tf ++
            "-minute candle not closed yet")],
          emitted_signals := [],
          invoked_strategy := false,
          mt5_timeframe := get_mt5_timeframe tf } := by
  unfold run_strategy_threaded
  rw [h]
  rfl

/-- C5 witness: the amended theorem at minute 12 with timeframe 5. -/
theorem C5_skip_produces_no_signal_witness :
    run_strategy_threaded "MA_Crossover_5min" 5 12 [] []
      = { trades := [],
          events := [.info ("MA_Crossover_5min" ++ ": SKIPPING - " ++
            toString 5 ++ "-minute candle not closed yet")],
          emitted_signals := [],
          invoked_strategy := false,
          mt5_timeframe := get_mt5_timeframe 5 } :=
  C5_skip_produces_no_signal "MA_Crossover_5min" 5 12 [] [] (by decide)

/-- C9 (confirmed): an exception raised while processing one symbol is
caught inside the per-symbol loop: it contributes an error log line, leaves
the trade log exactly as the remaining symbols alone would, and every
remaining symbol is still processed (one log event per symbol); the loop —
and hence the scheduler tick that called it synchronously — always returns. -/
theorem C9_symbol_error_is_isolated (n symbol e : String) (tf : Nat)
    (trades : List TradeData)
    (rest : List (String × Except String (Option Signal))) :
    run_symbols n tf trades ((symbol, Except.error e) :: rest)
      = ((run_symbols n tf trades rest).1,
         LogEvent.errorMsg (n ++ " - " ++ symbol ++ " Error: " ++ e)
           :: (run_symbols n tf trades rest).2)
    ∧ (run_symbols n tf trades ((symbol, Except.error e) :: rest)).2.length
      = rest.length + 1 := by
  refine ⟨rfl, ?_⟩
  simp [run_symbols, run_symbols_length_eq]

/-- C10 (confirmed): for any timeframe value outside the mapped set, the
MT5 conversion falls back to the 5-minute constant, so the strategy calls of
such an entry receive M5 candles while the boundary check of the same run
still uses the configured minutes. -/
theorem C10_unsupported_timeframe_falls_back (m : Nat) (n : String)
    (now : Nat) (trades : List TradeData)
    (results : List (String × Except String (Option Signal)))
    (h : m ∉ ([1, 5, 15, 30, 60, 240, 1440] : List Nat)) :
    get_mt5_timeframe m = TIMEFRAME_M5
    ∧ (run_strategy_threaded n m now trades results).mt5_timeframe
      = TIMEFRAME_M5
    ∧ (run_strategy_threaded n m now trades results).invoked_strategy
      = is_candle_closed m now := by
  simp only [List.mem_cons, List.mem_singleton, not_or] at h
  obtain ⟨h1, h5, h15, h30, h60, h240, h1440⟩ := h
  have hmap : get_mt5_timeframe m = TIMEFRAME_M5 := by
    simp [get_mt5_timeframe, h1, h5, h15, h30, h60, h240, h1440]
  refine ⟨hmap, ?_, ?_⟩
  · cases hb : is_candle_closed m now <;>
      simp [run_strategy_threaded, hb, hmap]
  · cases hb : is_candle_closed m now <;>
      simp [run_strategy_threaded, hb]

/-- C10 witness: the theorem at the unsupported timeframe 7 minutes. -/
theorem C10_unsupported_timeframe_falls_back_witness :
    get_mt5_timeframe 7 = TIMEFRAME_M5
    ∧ (run_strategy_threaded "S" 7 12 [] []).mt5_timeframe = TIMEFRAME_M5
    ∧ (run_strategy_threaded "S" 7 12 [] []).invoked_strategy
      = is_candle_closed 7 12 :=
  C10_unsupported_timeframe_falls_back 7 "S" 12 [] [] (by decide)

end ForexUltimate
